import Mathlib

/-!
Verification development for the healthcare appointment chat client and its
booking core.  The client code (ChatScreen, ChatInput, SlotSelector,
DoctorList, DoctorCard, useChat) is embedded shallowly: React state becomes an
explicit `ClientState`, browser local storage becomes an association list
`Store`, and the asynchronous turn call becomes a function parameterised by
the outcome of the network request.
-/

namespace HealthChat

/-- A JavaScript object as delivered in a JSON payload, modelled as an
association list from field name to (stringified) field value.  Reading an
absent field yields the JavaScript `undefined`, modelled by `jget`. -/
abbrev JsObj := List (String × String)

/-- Field read on a payload object: JavaScript member access `o.k`, which
evaluates to `undefined` when the field is absent. -/
def jget (o : JsObj) (k : String) : String :=
  (o.lookup k).getD "undefined"

/-- One transcript entry, as stored in the `messages` React state:
`{ sender, text }`. -/
structure Msg where
  sender : String
  text : String
deriving DecidableEq, Repr

/-- Browser local storage: a string-keyed string store. -/
abbrev Store := List (String × String)

/-- `localStorage.getItem` -/
def Store.getItem : Store → String → Option String
  | [], _ => none
  | (k, v) :: rest, key => if k = key then some v else Store.getItem rest key

/-- `localStorage.removeItem` -/
def Store.removeItem : Store → String → Store
  | [], _ => []
  | (k, v) :: rest, key =>
    if k = key then Store.removeItem rest key
    else (k, v) :: Store.removeItem rest key

/-- `localStorage.setItem` (overwrites any previous binding) -/
def Store.setItem (s : Store) (k v : String) : Store :=
  (k, v) :: s.removeItem k

/-- The reply body field handed to the client dispatch: `res.data.response`
carries `action`, `message` and the action-specific payload
(`slots`, `doctors`, `details`). -/
structure Resp where
  action : String
  message : String
  slots : List JsObj
  doctors : List JsObj
  details : Option JsObj
deriving DecidableEq, Repr

/-- The React state of `ChatScreen`: the persistent session identifier, the
transcript, the displayed slot list, the displayed doctor list, and the
booking-details modal payload. -/
structure ClientState where
  session : String
  messages : List Msg
  slots : List JsObj
  doctors : List JsObj
  bookingDetails : Option JsObj
deriving DecidableEq, Repr

/-- Append one agent message to the transcript:
`setMessages (p) => [...p, \x7b sender: "agent", text \x7d]`. -/
def pushAgent (st : ClientState) (text : String) : ClientState :=
  { st with messages := st.messages ++ [{ sender := "agent", text := text }] }

/-- The response dispatch inside `sendUserMessage`: four sequential
`if (res.action === ...)` statements, for `"reply"`, `"slots"`,
`"booking_confirmed"` and `"doctors"`.  Each branch appends one agent message
carrying `res.message`; the `"slots"`, `"booking_confirmed"` and `"doctors"`
branches additionally store the payload.  There is no branch for any other
action string. -/
def dispatch (res : Resp) (st : ClientState) : ClientState :=
  let st1 := if res.action = "reply" then pushAgent st res.message else st
  let st2 := if res.action = "slots" then
      { pushAgent st1 res.message with slots := res.slots } else st1
  let st3 := if res.action = "booking_confirmed" then
      { pushAgent st2 res.message with bookingDetails := res.details } else st2
  let st4 := if res.action = "doctors" then
      { pushAgent st3 res.message with doctors := res.doctors } else st3
  st4

/-- The whitespace characters stripped by JavaScript `String.prototype.trim`
(the ASCII portion relevant to chat input). -/
def isJsSpace (c : Char) : Bool :=
  c = ' ' || c = '\t' || c = '\n' || c = '\r' || c = '\x0b' || c = '\x0c'

/-- JavaScript `text.trim()`: strip leading and trailing whitespace. -/
def jsTrim (s : String) : String :=
  String.mk (((s.data.dropWhile isJsSpace).reverse.dropWhile isJsSpace).reverse)

/-- Outcome of the awaited `mutateAsync` call: either the field `response` of the reply body, or a rejected promise (network / server failure). -/
inductive Outcome where
  | ok (r : Resp)
  | err
deriving DecidableEq, Repr

/-- The synchronous first phase of `sendUserMessage`, executed before the response
is awaited (for non-blank `text`): append the user message, clear the
displayed slot list, and remove the persisted slot list from local storage. -/
def sendPre (text : String) (st : ClientState) (store : Store) :
    ClientState × Store :=
  ({ st with messages := st.messages ++ [{ sender := "user", text := text }],
             slots := [] },
   store.removeItem "chat_slots")

/-- The continuation of `sendUserMessage` after the await: on success the
dispatch runs on the response; on a rejected promise the catch block appends
the fixed apology message. -/
def finishSend (st : ClientState) (store : Store) (out : Outcome) :
    ClientState × Store :=
  match out with
  | .ok r => (dispatch r st, store)
  | .err => (pushAgent st "Sorry, something went wrong. Please try again.", store)

/-- `sendUserMessage(text)`: guard `if (!text.trim()) return`, then the
synchronous first phase, one API call, and the awaited continuation.  The third
component counts API calls made. -/
def sendUserMessage (text : String) (st : ClientState) (store : Store)
    (out : Outcome) : ClientState × Store × Nat :=
  if jsTrim text = "" then (st, store, 0)
  else
    let pre := sendPre text st store
    let fin := finishSend pre.1 pre.2 out
    (fin.1, fin.2, 1)

/-- The `useState` initialiser for the persistent session identifier in
`ChatScreen`: read `session_id` from local storage; when absent, generate a
fresh identifier (`crypto.randomUUID()`, passed in as `freshId`) and store
it.  Returns the session identifier in use and the updated store. -/
def initSession (store : Store) (freshId : String) : String × Store :=
  match store.getItem "session_id" with
  | some id => (id, store)
  | none => (freshId, store.setItem "session_id" freshId)

/-- `clearChat`: remove `chat_messages`, `chat_slots`, `chat_booking` and
`session_id` from local storage (the page then reloads). -/
def clearChat (store : Store) : Store :=
  (((store.removeItem "chat_messages").removeItem "chat_slots").removeItem
      "chat_booking").removeItem "session_id"

/-- The fixed greeting seeded into an empty transcript on mount. -/
def greetingMsg : Msg :=
  { sender := "agent",
    text := "Hello 👋! I can help you schedule an appointment.\n\nWhat brings you in today?" }

/-- The restore-on-mount effect of `ChatScreen`: read `chat_messages`,
`chat_slots` and `chat_booking` from local storage; set each piece of state
from the parsed value exactly when present; seed the transcript with the
fixed greeting when no transcript is stored.  The JSON decoders
`parseMsgs`, `parseSlots`, `parseBooking` stand for `JSON.parse` on each
stored string. -/
def restoreChat (parseMsgs : String → List Msg) (parseSlots : String → List JsObj)
    (parseBooking : String → JsObj) (store : Store) (st : ClientState) :
    ClientState :=
  let st1 := match store.getItem "chat_messages" with
    | some m => { st with messages := parseMsgs m }
    | none => { st with messages := [greetingMsg] }
  let st2 := match store.getItem "chat_slots" with
    | some s => { st1 with slots := parseSlots s }
    | none => st1
  let st3 := match store.getItem "chat_booking" with
    | some b => { st2 with bookingDetails := some (parseBooking b) }
    | none => st2
  st3

/-- The request body posted by the `useChat` mutation to the chat endpoint:
`axios.post(url, \x7b message, session_id: sessionId \x7d)`. -/
def chatRequestBody (message sessionId : String) : List (String × String) :=
  [("message", message), ("session_id", sessionId)]

/-- The reply body of the chat endpoint as seen by axios: `res.data`. -/
structure ChatReplyData where
  response : Resp
deriving DecidableEq, Repr

/-- The value the `useChat` mutation resolves with: `res.data.response`. -/
def mutationValue (data : ChatReplyData) : Resp :=
  data.response

/-- `ChatInput.send`: guard `if (!text.trim()) return`, otherwise hand the
raw text to `onSend` (which is `sendUserMessage`) and clear the input box. -/
def chatInputSend (text : String) (st : ClientState) (store : Store)
    (out : Outcome) : ClientState × Store × Nat :=
  if jsTrim text = "" then (st, store, 0)
  else sendUserMessage text st store out

/-- The `onSelect` handler passed to `DoctorList`:
`(d) => \x7b sendUserMessage(d.name); setDoctors([]) \x7d`.
`sendUserMessage` runs synchronously up to its await, then `setDoctors([])`
executes, and only afterwards the awaited continuation runs. -/
def onDoctorSelect (d : JsObj) (st : ClientState) (store : Store)
    (out : Outcome) : ClientState × Store × Nat :=
  if jsTrim (jget d "name") = "" then ({ st with doctors := [] }, store, 0)
  else
    let pre := sendPre (jget d "name") st store
    let fin := finishSend { pre.1 with doctors := [] } pre.2 out
    (fin.1, fin.2, 1)

/-- The `onSelect` handler passed to `SlotSelector` is `sendUserMessage`
itself; `SlotSelector` invokes it with `slot.start_time`. -/
def onSlotSelect (slot : JsObj) (st : ClientState) (store : Store)
    (out : Outcome) : ClientState × Store × Nat :=
  sendUserMessage (jget slot "start_time") st store out

/-- The action strings for which the dispatch in `sendUserMessage` has a
branch. -/
def handledActions : List String :=
  ["reply", "slots", "booking_confirmed", "doctors"]

/-- The fields of a slot payload as documented:
`\x7b start_time, end_time, doctor_id, available \x7d`. -/
def slotPayloadFields : List String :=
  ["start_time", "end_time", "doctor_id", "available"]

/-- The fields of a doctor payload as documented:
`\x7b doctor_id, name, specialization, rating \x7d`. -/
def doctorPayloadFields : List String :=
  ["doctor_id", "name", "specialization", "rating"]

/-- The fields `SlotSelector` reads from each slot object: the button shows
`slot.start_time` and `slot.doctor_name`, and clicking forwards
`slot.start_time`. -/
def slotSelectorReads : List String :=
  ["start_time", "doctor_name"]

/-- The fields `DoctorCard` reads from its doctor object: the avatar uses
`doctor.image`, and the card shows `doctor.name`, `doctor.specialization`
and `doctor.rating`. -/
def doctorCardReads : List String :=
  ["image", "name", "specialization", "rating"]

/-- The fields `DoctorList` reads from each doctor object: the React key is
`doc.id`, and the whole object is passed on to `DoctorCard`. -/
def doctorListReads : List String :=
  doctorCardReads ++ ["id"]

/-- The texts `SlotSelector` renders for one slot object (start time and
doctor name lines of the button). -/
def slotButtonTexts (slot : JsObj) : List String :=
  [jget slot "start_time", jget slot "doctor_name"]

/-- The texts `DoctorCard` renders for one doctor object (avatar source,
name, specialization, rating). -/
def doctorCardTexts (d : JsObj) : List String :=
  [jget d "image", jget d "name", jget d "specialization", jget d "rating"]

end HealthChat

namespace BookingCore

/-- Modelled from the spec: the backend Booking record and Booking Ledger
(`backend/tools/booking_tool.py`, `backend/data/bookings.json`) are not part
of the provided sources; this models the Booking of §3 with the fields the
no-double-booking invariant speaks about, plus its status. -/
structure Booking where
  booking_id : String
  doctor_id : Nat
  date : String
  start_time : String
  status : String
deriving DecidableEq, Repr

/-- Two bookings occupy the same appointment slot when they agree on the
triple (doctor_id, date, start_time). -/
def sameSlot (b1 b2 : Booking) : Bool :=
  b1.doctor_id = b2.doctor_id && b1.date = b2.date && b1.start_time = b2.start_time

/-- Modelled from the spec: `find_confirmed`-style occupancy test — some
confirmed booking in the ledger occupies (doctor_id, date, start_time). -/
def occupied (L : List Booking) (d : Nat) (dt tm : String) : Bool :=
  L.any (fun b => b.status = "confirmed" && b.doctor_id = d && b.date = dt
      && b.start_time = tm)

/-- Modelled from the spec: atomic Ledger `insert` (§4.3) — fails with
`Conflict` if another confirmed booking already occupies the same
(doctor_id, date, start_time); otherwise prepends the booking. -/
def insert (L : List Booking) (b : Booking) : Except String (List Booking) :=
  if b.status = "confirmed" && occupied L b.doctor_id b.date b.start_time then
    .error "Conflict"
  else
    .ok (b :: L)

/-- Modelled from the spec: one serialized `book` attempt — the Transaction
revalidates and calls Ledger `insert` inside the mutation boundary; on
`Conflict` the ledger is left unchanged (`SlotNoLongerAvailable` is returned
to the caller). -/
def bookAttempt (L : List Booking) (b : Booking) : List Booking :=
  match insert L b with
  | .ok L2 => L2
  | .error _ => L

/-- A sequence of serialized `book` attempts applied to the ledger.  Per §5
all Ledger mutations are mutually exclusive, so any set of concurrent
attempts executes as some such sequence. -/
def bookSeq (L : List Booking) (reqs : List Booking) : List Booking :=
  reqs.foldl bookAttempt L

/-- Two bookings conflict when both are confirmed and occupy the same
(doctor_id, date, start_time). -/
def conflicts (b1 b2 : Booking) : Bool :=
  b1.status = "confirmed" && b2.status = "confirmed" && sameSlot b1 b2

/-- The no-double-booking invariant: no two distinct entries of the ledger
are both confirmed on the same (doctor_id, date, start_time). -/
def noDouble : List Booking → Bool
  | [] => true
  | b :: rest => rest.all (fun b2 => !conflicts b b2) && noDouble rest

end BookingCore

namespace HealthChat

theorem getItem_removeItem_self (s : Store) (k : String) :
    (s.removeItem k).getItem k = none := by
  induction s with
  | nil => rfl
  | cons kv rest ih =>
    obtain ⟨a, b⟩ := kv
    by_cases hk : a = k <;> simp [Store.removeItem, Store.getItem, hk, ih]

theorem getItem_removeItem_ne (s : Store) (k k' : String) (h : k' ≠ k) :
    (s.removeItem k).getItem k' = s.getItem k' := by
  induction s with
  | nil => rfl
  | cons kv rest ih =>
    obtain ⟨a, b⟩ := kv
    by_cases hk : a = k
    · have hak : a ≠ k' := fun hc => h (hc ▸ hk)
      simp [Store.removeItem, Store.getItem, hk, hak, ih, h, Ne.symm h]
    · by_cases hak : a = k' <;>
        simp [Store.removeItem, Store.getItem, hk, hak, ih, h, Ne.symm h]

theorem getItem_setItem_self (s : Store) (k v : String) :
    (s.setItem k v).getItem k = some v := by
  simp [Store.setItem, Store.getItem]

/-- The transcript after the dispatch: each of the four handled actions
appends exactly one agent message carrying `res.message`; any other action
leaves the state unchanged. -/
theorem dispatch_messages (r : Resp) (st : ClientState) :
    (dispatch r st).messages =
      (if r.action = "reply" ∨ r.action = "slots" ∨ r.action = "booking_confirmed"
          ∨ r.action = "doctors" then
        st.messages ++ [{ sender := "agent", text := r.message }]
      else st.messages) := by
  by_cases h1 : r.action = "reply" <;>
    by_cases h2 : r.action = "slots" <;>
      by_cases h3 : r.action = "booking_confirmed" <;>
        by_cases h4 : r.action = "doctors" <;>
          simp_all [dispatch, pushAgent]

theorem dispatch_slots_eq (r : Resp) (st : ClientState) :
    (dispatch r st).slots = (if r.action = "slots" then r.slots else st.slots) := by
  by_cases h1 : r.action = "reply" <;>
    by_cases h2 : r.action = "slots" <;>
      by_cases h3 : r.action = "booking_confirmed" <;>
        by_cases h4 : r.action = "doctors" <;>
          simp_all [dispatch, pushAgent]

theorem dispatch_doctors_eq (r : Resp) (st : ClientState) :
    (dispatch r st).doctors =
      (if r.action = "doctors" then r.doctors else st.doctors) := by
  by_cases h1 : r.action = "reply" <;>
    by_cases h2 : r.action = "slots" <;>
      by_cases h3 : r.action = "booking_confirmed" <;>
        by_cases h4 : r.action = "doctors" <;>
          simp_all [dispatch, pushAgent]

theorem dispatch_session (r : Resp) (st : ClientState) :
    (dispatch r st).session = st.session := by
  by_cases h1 : r.action = "reply" <;>
    by_cases h2 : r.action = "slots" <;>
      by_cases h3 : r.action = "booking_confirmed" <;>
        by_cases h4 : r.action = "doctors" <;>
          simp_all [dispatch, pushAgent]

theorem dispatch_unhandled (r : Resp) (st : ClientState)
    (h1 : r.action ≠ "reply") (h2 : r.action ≠ "slots")
    (h3 : r.action ≠ "booking_confirmed") (h4 : r.action ≠ "doctors") :
    dispatch r st = st := by
  simp [dispatch, h1, h2, h3, h4]

end HealthChat

namespace BookingCore

theorem insert_ok_shape (L : List Booking) (b : Booking) (L2 : List Booking)
    (h : insert L b = .ok L2) : L2 = b :: L := by
  unfold insert at h
  by_cases hc : (b.status = "confirmed"
      && occupied L b.doctor_id b.date b.start_time) = true
  · rw [if_pos hc] at h
    cases h
  · rw [if_neg hc] at h
    cases h
    rfl

theorem insert_ok_no_conflict (L : List Booking) (b : Booking) (L2 : List Booking)
    (h : insert L b = .ok L2) (b2 : Booking) (hb2 : b2 ∈ L) :
    conflicts b b2 = false := by
  unfold insert at h
  by_cases hc : (b.status = "confirmed"
      && occupied L b.doctor_id b.date b.start_time) = true
  · rw [if_pos hc] at h
    cases h
  · by_cases hbs : b.status = "confirmed"
    · have hocc : occupied L b.doctor_id b.date b.start_time = false := by
        rcases Bool.eq_false_or_eq_true
            (occupied L b.doctor_id b.date b.start_time) with h1 | h0
        · exact absurd (by simp [hbs, h1]) hc
        · exact h0
      have hall : ∀ x ∈ L, ¬(x.status = "confirmed" ∧ x.doctor_id = b.doctor_id
          ∧ x.date = b.date ∧ x.start_time = b.start_time) := by
        intro x hx hcontra
        have : occupied L b.doctor_id b.date b.start_time = true := by
          unfold occupied
          rw [List.any_eq_true]
          exact ⟨x, hx, by simp [hcontra.1, hcontra.2.1, hcontra.2.2.1,
            hcontra.2.2.2]⟩
        rw [this] at hocc
        cases hocc
      have h2 := hall b2 hb2
      rcases Bool.eq_false_or_eq_true (conflicts b b2) with h1 | h0
      · exfalso
        apply h2
        simp only [conflicts, sameSlot, Bool.and_eq_true, decide_eq_true_eq] at h1
        obtain ⟨⟨hs1, hs2⟩, ⟨hdid, hdate⟩, hst⟩ := h1
        exact ⟨hs2, hdid.symm, hdate.symm, hst.symm⟩
      · exact h0
    · unfold conflicts
      simp [hbs]

theorem noDouble_cons (b : Booking) (L : List Booking)
    (hb : ∀ b2 ∈ L, conflicts b b2 = false) (h : noDouble L = true) :
    noDouble (b :: L) = true := by
  unfold noDouble
  rw [Bool.and_eq_true, List.all_eq_true]
  exact ⟨fun b2 hb2 => by simp [hb b2 hb2], h⟩

theorem noDouble_bookAttempt (L : List Booking) (b : Booking)
    (h : noDouble L = true) : noDouble (bookAttempt L b) = true := by
  unfold bookAttempt
  cases hins : insert L b with
  | ok L2 =>
    have hsh := insert_ok_shape L b L2 hins
    subst hsh
    exact noDouble_cons b L
      (fun b2 hb2 => insert_ok_no_conflict L b _ hins b2 hb2) h
  | error e => exact h

theorem noDouble_bookSeq (L : List Booking) (reqs : List Booking)
    (h : noDouble L = true) : noDouble (bookSeq L reqs) = true := by
  induction reqs generalizing L with
  | nil => exact h
  | cons r rest ih =>
    show noDouble (bookSeq (bookAttempt L r) rest) = true
    exact ih (bookAttempt L r) (noDouble_bookAttempt L r h)

end BookingCore


open HealthChat

/-- Claim C1 counterexample: `cancelled` belongs to the documented action set,
yet the dispatch in `sendUserMessage` has no branch for it — at a concrete
`cancelled` response the transcript gains no agent message and the client
state is unchanged. -/
theorem C1_counterexample_cancelled_unhandled :
    dispatch
      { action := "cancelled", message := "Your appointment was cancelled.",
        slots := [], doctors := [], details := none }
      { session := "s1", messages := [], slots := [], doctors := [],
        bookingDetails := none } =
    { session := "s1", messages := [], slots := [], doctors := [],
      bookingDetails := none } := by
  rfl

/-- Claim C1 (amended): the client dispatch in `sendUserMessage` handles
exactly the actions reply, slots, doctors and booking_confirmed, appending
exactly one agent message carrying the response message for each of them; for
any action outside that set — including the documented action `cancelled` —
it appends nothing and leaves the state unchanged. -/
theorem C1_dispatch_handles_exactly_four (r : Resp) (st : ClientState) :
    (r.action ∈ handledActions →
      (dispatch r st).messages
        = st.messages ++ [{ sender := "agent", text := r.message }]) ∧
    (r.action ∉ handledActions → dispatch r st = st) := by
  constructor
  · intro h
    rw [dispatch_messages]
    have hor : r.action = "reply" ∨ r.action = "slots"
        ∨ r.action = "booking_confirmed" ∨ r.action = "doctors" := by
      simpa [handledActions] using h
    rw [if_pos hor]
  · intro h
    simp only [handledActions, List.mem_cons, List.mem_singleton,
      List.not_mem_nil, not_or] at h
    exact dispatch_unhandled r st h.1 h.2.1 h.2.2.1 h.2.2.2.1

/-- Claim C1 witness: the amended dispatch contract evaluated at a concrete
handled response and at a concrete unhandled `cancelled` response. -/
theorem C1_dispatch_handles_exactly_four_witness :
    (dispatch
      { action := "reply", message := "Hi there", slots := [],
        doctors := [], details := none }
      { session := "s2", messages := [], slots := [], doctors := [],
        bookingDetails := none }).messages
      = [{ sender := "agent", text := "Hi there" }] ∧
    dispatch
      { action := "cancelled", message := "gone", slots := [],
        doctors := [], details := none }
      { session := "s2", messages := [], slots := [], doctors := [],
        bookingDetails := none }
      = { session := "s2", messages := [], slots := [], doctors := [],
          bookingDetails := none } := by
  constructor
  · have h := (C1_dispatch_handles_exactly_four
      { action := "reply", message := "Hi there", slots := [], doctors := [],
        details := none }
      { session := "s2", messages := [], slots := [], doctors := [],
        bookingDetails := none }).1 (by decide)
    simpa using h
  · exact (C1_dispatch_handles_exactly_four
      { action := "cancelled", message := "gone", slots := [], doctors := [],
        details := none }
      { session := "s2", messages := [], slots := [], doctors := [],
        bookingDetails := none }).2 (by decide)

/-- Claim C2: no two distinct ledger entries are both confirmed on the same
(doctor_id, date, start_time), and this is preserved by any sequence of
serialized book attempts (per §5, Ledger mutations are mutually exclusive, so
concurrent attempts execute as some such sequence). -/
theorem C2_no_double_booking (L : List BookingCore.Booking)
    (reqs : List BookingCore.Booking) (h : BookingCore.noDouble L = true) :
    BookingCore.noDouble (BookingCore.bookSeq L reqs) = true :=
  BookingCore.noDouble_bookSeq L reqs h

/-- Claim C2 witness: two book attempts on the very same slot, starting from
an empty ledger; the invariant holds afterwards (only one insert succeeds). -/
theorem C2_no_double_booking_witness :
    BookingCore.noDouble (BookingCore.bookSeq []
      [{ booking_id := "APPT-1", doctor_id := 1, date := "2025-12-02",
         start_time := "10:30", status := "confirmed" },
       { booking_id := "APPT-2", doctor_id := 1, date := "2025-12-02",
         start_time := "10:30", status := "confirmed" }]) = true :=
  C2_no_double_booking []
    [{ booking_id := "APPT-1", doctor_id := 1, date := "2025-12-02",
       start_time := "10:30", status := "confirmed" },
     { booking_id := "APPT-2", doctor_id := 1, date := "2025-12-02",
       start_time := "10:30", status := "confirmed" }] rfl

/-- Claim C3: when the turn request rejects, the client appends exactly one
agent message carrying the fixed apology text, and both the in-memory session
identifier and the stored session_id are unchanged, so the next turn retries
with the same session. -/
theorem C3_failure_generic_apology (text : String) (st : ClientState)
    (store : Store) (h : jsTrim text ≠ "") :
    (sendUserMessage text st store .err).1.messages
      = st.messages ++
        [{ sender := "user", text := text },
         { sender := "agent",
           text := "Sorry, something went wrong. Please try again." }] ∧
    (sendUserMessage text st store .err).1.session = st.session ∧
    (sendUserMessage text st store .err).2.1.getItem "session_id"
      = store.getItem "session_id" := by
  unfold sendUserMessage
  rw [if_neg h]
  refine ⟨?_, ?_, ?_⟩
  · simp [sendPre, finishSend, pushAgent]
  · simp [sendPre, finishSend, pushAgent]
  · simpa [sendPre, finishSend] using
      getItem_removeItem_ne store "chat_slots" "session_id" (by decide)

/-- Claim C3 witness: the failure path evaluated at a concrete non-blank turn. -/
theorem C3_failure_generic_apology_witness :
    (sendUserMessage "book a slot"
        { session := "s3", messages := [], slots := [], doctors := [],
          bookingDetails := none }
        [("session_id", "s3")] .err).1.messages
      = [{ sender := "user", text := "book a slot" },
         { sender := "agent",
           text := "Sorry, something went wrong. Please try again." }] ∧
    (sendUserMessage "book a slot"
        { session := "s3", messages := [], slots := [], doctors := [],
          bookingDetails := none }
        [("session_id", "s3")] .err).2.1.getItem "session_id"
      = some "s3" := by
  have h := C3_failure_generic_apology "book a slot"
    { session := "s3", messages := [], slots := [], doctors := [],
      bookingDetails := none }
    [("session_id", "s3")] (by decide)
  exact ⟨by simpa using h.1, by simpa using h.2.2⟩

/-- Claim C4: each user turn makes exactly one turn-taking call; the posted
body has exactly the fields message and session_id, and the value handed to
the dispatch is the field response of the reply body. -/
theorem C4_single_turn_call (m sid : String) (d : ChatReplyData)
    (text : String) (st : ClientState) (store : Store) (out : Outcome)
    (h : jsTrim text ≠ "") :
    (chatRequestBody m sid).map Prod.fst = ["message", "session_id"] ∧
    mutationValue d = d.response ∧
    (sendUserMessage text st store out).2.2 = 1 := by
  refine ⟨rfl, rfl, ?_⟩
  unfold sendUserMessage
  rw [if_neg h]

/-- Claim C4 witness: one concrete turn — body fields, extracted response,
and a single API call. -/
theorem C4_single_turn_call_witness :
    (chatRequestBody "hello" "s4").map Prod.fst = ["message", "session_id"] ∧
    mutationValue
      { response :=
          { action := "reply", message := "Hi", slots := [], doctors := [],
            details := none } }
      = { action := "reply", message := "Hi", slots := [], doctors := [],
          details := none } ∧
    (sendUserMessage "hello"
        { session := "s4", messages := [], slots := [], doctors := [],
          bookingDetails := none }
        [] .err).2.2 = 1 :=
  C4_single_turn_call "hello" "s4"
    { response :=
        { action := "reply", message := "Hi", slots := [], doctors := [],
          details := none } }
    "hello"
    { session := "s4", messages := [], slots := [], doctors := [],
      bookingDetails := none }
    [] .err (by decide)

/-- Claim C5: after clearChat has removed the stored identifiers, the next
initialisation takes the generate branch — it returns and stores the freshly
generated identifier, which (being freshly generated) differs from the
discarded one; when a stored identifier exists, it is returned unchanged and
the store is untouched. -/
theorem C5_session_reset (store : Store) (oldId freshId : String)
    (h1 : store.getItem "session_id" = some oldId) (h2 : freshId ≠ oldId) :
    (initSession (clearChat store) freshId).1 = freshId ∧
    (initSession (clearChat store) freshId).2.getItem "session_id"
      = some freshId ∧
    (initSession (clearChat store) freshId).1 ≠ oldId ∧
    initSession store freshId = (oldId, store) := by
  have hc : (clearChat store).getItem "session_id" = none := by
    unfold clearChat
    exact getItem_removeItem_self _ _
  refine ⟨?_, ?_, ?_, ?_⟩
  · simp [initSession, hc]
  · simp [initSession, hc, getItem_setItem_self]
  · simpa [initSession, hc] using h2
  · simp [initSession, h1]

/-- Claim C5 witness: a concrete store holding session id, transcript, slots
and booking, cleared and re-initialised with a distinct fresh identifier. -/
theorem C5_session_reset_witness :
    (initSession
        (clearChat [("session_id", "old-uuid"), ("chat_messages", "[]"),
                    ("chat_slots", "[]"), ("chat_booking", "null")])
        "new-uuid").1 = "new-uuid" ∧
    (initSession
        (clearChat [("session_id", "old-uuid"), ("chat_messages", "[]"),
                    ("chat_slots", "[]"), ("chat_booking", "null")])
        "new-uuid").2.getItem "session_id" = some "new-uuid" ∧
    (initSession
        (clearChat [("session_id", "old-uuid"), ("chat_messages", "[]"),
                    ("chat_slots", "[]"), ("chat_booking", "null")])
        "new-uuid").1 ≠ "old-uuid" ∧
    initSession [("session_id", "old-uuid"), ("chat_messages", "[]"),
                 ("chat_slots", "[]"), ("chat_booking", "null")] "new-uuid"
      = ("old-uuid",
         [("session_id", "old-uuid"), ("chat_messages", "[]"),
          ("chat_slots", "[]"), ("chat_booking", "null")]) :=
  C5_session_reset
    [("session_id", "old-uuid"), ("chat_messages", "[]"),
     ("chat_slots", "[]"), ("chat_booking", "null")]
    "old-uuid" "new-uuid" rfl (by decide)

/-- Claim C6 counterexample: the presentation components read fields outside
the documented payload shapes.  A slot object carrying exactly the documented
fields renders `undefined` for the doctor-name line of SlotSelector, a doctor
object carrying exactly the documented fields renders `undefined` for the
avatar of DoctorCard, and each offending field (doctor_name, image, id) is
read by a component yet absent from the documented shape. -/
theorem C6_counterexample_undocumented_reads :
    slotButtonTexts
      [("start_time", "09:00"), ("end_time", "09:30"),
       ("doctor_id", "1"), ("available", "true")]
      = ["09:00", "undefined"] ∧
    doctorCardTexts
      [("doctor_id", "1"), ("name", "Dr. Ashik Arya"),
       ("specialization", "General Physician"), ("rating", "4.7")]
      = ["undefined", "Dr. Ashik Arya", "General Physician", "4.7"] ∧
    ("doctor_name" ∈ slotSelectorReads ∧ "doctor_name" ∉ slotPayloadFields) ∧
    ("image" ∈ doctorCardReads ∧ "image" ∉ doctorPayloadFields) ∧
    ("id" ∈ doctorListReads ∧ "id" ∉ doctorPayloadFields) := by
  decide

/-- Claim C6 (amended): every field the components read is drawn from the
documented payload shapes extended by exactly three undocumented fields:
doctor_name (read by SlotSelector), image (read by DoctorCard) and id (read
by DoctorList). -/
theorem C6_component_reads (f : String) :
    (f ∈ slotSelectorReads → f ∈ slotPayloadFields ∨ f = "doctor_name") ∧
    (f ∈ doctorCardReads → f ∈ doctorPayloadFields ∨ f = "image") ∧
    (f ∈ doctorListReads →
      f ∈ doctorPayloadFields ∨ f = "image" ∨ f = "id") := by
  refine ⟨fun h => ?_, fun h => ?_, fun h => ?_⟩ <;>
    · simp only [slotSelectorReads, doctorCardReads, doctorListReads,
        doctorPayloadFields, slotPayloadFields, List.mem_cons, List.mem_append,
        List.not_mem_nil, or_false] at h ⊢
      tauto

/-- Claim C6 witness: the amended read contract evaluated at the offending
fields. -/
theorem C6_component_reads_witness :
    ("doctor_name" ∈ slotPayloadFields ∨ "doctor_name" = "doctor_name") ∧
    ("image" ∈ doctorPayloadFields ∨ "image" = "image") ∧
    ("start_time" ∈ slotPayloadFields ∨ "start_time" = "doctor_name") :=
  ⟨(C6_component_reads "doctor_name").1 (by decide),
   (C6_component_reads "image").2.1 (by decide),
   (C6_component_reads "start_time").1 (by decide)⟩

/-- Claim C7: on mount the client restores transcript, slot list and booking
details from local storage exactly when each is present, seeds the transcript
with exactly the fixed greeting when no transcript is stored, and in that
case the transcript is nonempty after initialisation. -/
theorem C7_restore_on_mount (pm : String → List Msg)
    (ps : String → List JsObj) (pb : String → JsObj) (store : Store)
    (st : ClientState) :
    (∀ m, store.getItem "chat_messages" = some m →
        (restoreChat pm ps pb store st).messages = pm m) ∧
    (store.getItem "chat_messages" = none →
        (restoreChat pm ps pb store st).messages = [greetingMsg]) ∧
    (∀ s, store.getItem "chat_slots" = some s →
        (restoreChat pm ps pb store st).slots = ps s) ∧
    (store.getItem "chat_slots" = none →
        (restoreChat pm ps pb store st).slots = st.slots) ∧
    (∀ b, store.getItem "chat_booking" = some b →
        (restoreChat pm ps pb store st).bookingDetails = some (pb b)) ∧
    (store.getItem "chat_booking" = none →
        (restoreChat pm ps pb store st).bookingDetails = st.bookingDetails) ∧
    (store.getItem "chat_messages" = none →
        (restoreChat pm ps pb store st).messages ≠ []) := by
  cases hm : store.getItem "chat_messages" <;>
    cases hs : store.getItem "chat_slots" <;>
      cases hb : store.getItem "chat_booking" <;>
        simp [restoreChat, hm, hs, hb]

/-- Claim C7 witness: restoration evaluated at a store holding an explicitly
persisted empty transcript, and at an empty store (greeting seeded). -/
theorem C7_restore_on_mount_witness :
    (restoreChat (fun _ => []) (fun _ => []) (fun _ => [])
        [("chat_messages", "[]")]
        { session := "s7", messages := [], slots := [], doctors := [],
          bookingDetails := none }).messages = [] ∧
    (restoreChat (fun _ => []) (fun _ => []) (fun _ => []) []
        { session := "s7", messages := [], slots := [], doctors := [],
          bookingDetails := none }).messages = [greetingMsg] :=
  ⟨(C7_restore_on_mount (fun _ => []) (fun _ => []) (fun _ => [])
      [("chat_messages", "[]")]
      { session := "s7", messages := [], slots := [], doctors := [],
        bookingDetails := none }).1 "[]" rfl,
   (C7_restore_on_mount (fun _ => []) (fun _ => []) (fun _ => []) []
      { session := "s7", messages := [], slots := [], doctors := [],
        bookingDetails := none }).2.1 rfl⟩

/-- Claim C8: submitting an empty or all-whitespace input is a no-op at the
public interface — both the ChatInput guard and the sendUserMessage guard
return early, so no message is appended, no network call is made, and no
client or stored state changes. -/
theorem C8_blank_input_noop (text : String) (st : ClientState) (store : Store)
    (out : Outcome) (h : ∀ c ∈ text.data, isJsSpace c = true) :
    chatInputSend text st store out = (st, store, 0) ∧
    sendUserMessage text st store out = (st, store, 0) := by
  have ht : jsTrim text = "" := by
    unfold jsTrim
    rw [List.dropWhile_eq_nil_iff.mpr h]
    rfl
  constructor
  · simp [chatInputSend, ht]
  · simp [sendUserMessage, ht]

/-- Claim C8 witness: a whitespace-only input is a no-op at a concrete state. -/
theorem C8_blank_input_noop_witness :
    chatInputSend "  \t \n "
      { session := "s8",
        messages := [{ sender := "agent", text := "Hello" }],
        slots := [[("start_time", "09:00")]], doctors := [],
        bookingDetails := none }
      [("chat_slots", "[]")] .err
      = ({ session := "s8",
           messages := [{ sender := "agent", text := "Hello" }],
           slots := [[("start_time", "09:00")]], doctors := [],
           bookingDetails := none },
         [("chat_slots", "[]")], 0) :=
  (C8_blank_input_noop "  \t \n "
    { session := "s8",
      messages := [{ sender := "agent", text := "Hello" }],
      slots := [[("start_time", "09:00")]], doctors := [],
      bookingDetails := none }
    [("chat_slots", "[]")] .err (by decide)).1

/-- Claim C9: on every non-blank send, the displayed slot list is emptied and
the persisted slot list is removed from local storage in the synchronous
first phase, before the response is awaited; afterwards only a fresh slots
response repopulates the displayed list — any other outcome leaves it empty. -/
theorem C9_slots_cleared_before_await (text : String) (st : ClientState)
    (store : Store) (h : jsTrim text ≠ "") :
    (sendPre text st store).1.slots = [] ∧
    (sendPre text st store).2.getItem "chat_slots" = none ∧
    (∀ r : Resp, r.action ≠ "slots" →
        (sendUserMessage text st store (.ok r)).1.slots = []) ∧
    (∀ r : Resp, r.action = "slots" →
        (sendUserMessage text st store (.ok r)).1.slots = r.slots) ∧
    (sendUserMessage text st store .err).1.slots = [] := by
  refine ⟨rfl, getItem_removeItem_self store "chat_slots", ?_, ?_, ?_⟩
  · intro r hr
    unfold sendUserMessage
    rw [if_neg h]
    simp [finishSend, dispatch_slots_eq, hr, sendPre]
  · intro r hr
    unfold sendUserMessage
    rw [if_neg h]
    simp [finishSend, dispatch_slots_eq, hr, sendPre]
  · unfold sendUserMessage
    rw [if_neg h]
    simp [finishSend, pushAgent, sendPre]

/-- Claim C9 witness: a concrete non-blank turn whose response is a reply —
the stale slot list is gone before the await and stays empty after it. -/
theorem C9_slots_cleared_before_await_witness :
    (sendPre "next tuesday"
        { session := "s9", messages := [],
          slots := [[("start_time", "09:00")]], doctors := [],
          bookingDetails := none }
        [("chat_slots", "old")]).1.slots = [] ∧
    (sendPre "next tuesday"
        { session := "s9", messages := [],
          slots := [[("start_time", "09:00")]], doctors := [],
          bookingDetails := none }
        [("chat_slots", "old")]).2.getItem "chat_slots" = none := by
  have h := C9_slots_cleared_before_await "next tuesday"
    { session := "s9", messages := [],
      slots := [[("start_time", "09:00")]], doctors := [],
      bookingDetails := none }
    [("chat_slots", "old")] (by decide)
  exact ⟨h.1, h.2.1⟩

/-- Claim C10: selecting a doctor card forwards exactly the display
name of the doctor as the next user utterance through the normal turn call (one API call)
and empties the displayed doctor list (unless the new response itself carries
doctors); selecting a slot invokes the same sendUserMessage with exactly the
start_time string of the slot. -/
theorem C10_selection_forwards_text (d slot : JsObj) (st : ClientState)
    (store : Store) (out : Outcome) (h1 : jsTrim (jget d "name") ≠ "") :
    (sendPre (jget d "name") st store).1.messages
      = st.messages ++ [{ sender := "user", text := jget d "name" }] ∧
    (onDoctorSelect d st store out).2.2 = 1 ∧
    (∀ r : Resp, r.action ≠ "doctors" →
        (onDoctorSelect d st store (.ok r)).1.doctors = []) ∧
    (onDoctorSelect d st store .err).1.doctors = [] ∧
    onSlotSelect slot st store out
      = sendUserMessage (jget slot "start_time") st store out ∧
    (jsTrim (jget slot "start_time") ≠ "" →
      (sendPre (jget slot "start_time") st store).1.messages
        = st.messages ++
          [{ sender := "user", text := jget slot "start_time" }]) := by
  refine ⟨rfl, ?_, ?_, ?_, rfl, fun _ => rfl⟩
  · unfold onDoctorSelect
    rw [if_neg h1]
  · intro r hr
    unfold onDoctorSelect
    rw [if_neg h1]
    simp [finishSend, dispatch_doctors_eq, hr]
  · unfold onDoctorSelect
    rw [if_neg h1]
    simp [finishSend, pushAgent]

/-- Claim C10 witness: a concrete doctor card and slot selection. -/
theorem C10_selection_forwards_text_witness :
    (sendPre (jget [("id", "1"), ("name", "Dr. Ashik Arya")] "name")
        { session := "s10", messages := [], slots := [], doctors := [],
          bookingDetails := none }
        []).1.messages
      = [{ sender := "user", text := "Dr. Ashik Arya" }] ∧
    (onDoctorSelect [("id", "1"), ("name", "Dr. Ashik Arya")]
        { session := "s10", messages := [], slots := [], doctors := [],
          bookingDetails := none }
        [] .err).1.doctors = [] ∧
    onSlotSelect [("start_time", "09:00"), ("end_time", "09:30")]
        { session := "s10", messages := [], slots := [], doctors := [],
          bookingDetails := none }
        [] .err
      = sendUserMessage "09:00"
          { session := "s10", messages := [], slots := [], doctors := [],
            bookingDetails := none }
          [] .err := by
  have h := C10_selection_forwards_text
    [("id", "1"), ("name", "Dr. Ashik Arya")]
    [("start_time", "09:00"), ("end_time", "09:30")]
    { session := "s10", messages := [], slots := [], doctors := [],
      bookingDetails := none }
    [] .err (by decide)
  refine ⟨by simpa using h.1, h.2.2.2.1, ?_⟩
  have h5 := h.2.2.2.2.1
  simpa using h5
